import Mathlib

/-!
Shallow embedding of the advisory rate limiter (`RateLimiter` class) from
`src/Gemini-AI-Studio-Fine-Tuning-Dataset-Creator.py`, together with proofs
about its windowing, persistence and status-reporting behaviour.

Modelling decisions:
* Timestamps (`time.time()`) and counters are `Int`.  Persisted JSON can hold
  arbitrary numbers, so counters are not forced to be non-negative by type.
* Python dicts become association lists (`List (String × _)`) with first-match
  lookup and in-place update of the matching key.
* Python exceptions (`KeyError` from `self.state[model]` / `self.MODELS[model]`,
  `json.JSONDecodeError` from `json.load`) become `Except PyError`.
* The persisted file is a `StoreContent`: absent (file does not exist),
  corrupt (present but unparseable), or valid JSON holding a tracker state.
* Logging calls become a list of `LogEntry` values in the result.
-/

/-- Per-model mutable window state: the four persisted fields
`minute_start`, `day_start`, `minute_requests`, `daily_requests`. -/
structure ModelState where
  minute_start : Int
  day_start : Int
  minute_requests : Int
  daily_requests : Int
deriving Repr, DecidableEq

/-- Static per-model limits, one entry of the `MODELS` class constant. -/
structure ModelLimits where
  rpm : Int
  daily : Int
deriving Repr, DecidableEq

/-- The static configuration table: resource name to limits. -/
abbrev Config := List (String × ModelLimits)

/-- The tracker state `self.state`: resource name to window state. -/
abbrev TrackerState := List (String × ModelState)

/-- Python dict lookup `d[k]` (also backs `k in d`), `none` when absent.
A dict has unique keys, so first-match lookup is faithful. -/
def dlookup {α : Type} (k : String) : List (String × α) → Option α
  | [] => none
  | (k1, v) :: rest => if k1 = k then some v else dlookup k rest

/-- Python in-place mutation of an existing dict entry `d[k] = v`
(as done through the `model_state` reference in `log_request`). -/
def dupdate {α : Type} (k : String) (v : α) : List (String × α) → List (String × α)
  | [] => []
  | (k1, v1) :: rest => (if k1 = k then (k1, v) else (k1, v1)) :: dupdate k v rest

/-- The `RateLimiter.MODELS` class constant, verbatim from the source. -/
def MODELS : Config :=
  [("gemini-1.5-flash", ⟨15, 1500⟩),
   ("gemini-1.5-flash-8b", ⟨15, 1500⟩),
   ("gemini-1.5-pro", ⟨2, 50⟩),
   ("gemini-2.0-flash", ⟨10, 1500⟩),
   ("gemini-2.0-flash-thinking", ⟨10, 1500⟩)]

/-- Python exceptions that the embedded code can raise. -/
inductive PyError where
  | keyError (key : String)
  | jsonDecodeError
deriving Repr, DecidableEq

/-- The persisted state file `rate_state.json` as the code observes it. -/
inductive StoreContent where
  | absent
  | corrupt
  | valid (s : TrackerState)
deriving Repr, DecidableEq

/-- Logging calls emitted by `log_request`. -/
inductive LogEntry where
  | errorUnknownModel (model : String)
  | warnAdvisory (model : String) (remainingMinute remainingDaily : Int)
  | infoRequestLogged (model : String) (remainingMinute remainingDaily : Int)
deriving Repr, DecidableEq

/-- `RateLimiter._initialize_state`: every configured model gets counters 0
and both window starts at the current time. -/
def initialize_state (models : Config) (now : Int) : TrackerState :=
  models.map (fun p => (p.1, ⟨now, now, 0, 0⟩))

/-- `RateLimiter.save_state`: `json.dump(self.state, f)` writes the full
state to the file. -/
def save_state (state : TrackerState) : StoreContent :=
  StoreContent.valid state

/-- `RateLimiter.load_state`: if the file exists, `json.load` it (raising on
unparseable content); otherwise initialize fresh state and save it.
Returns the loaded state together with the resulting file content. -/
def load_state (models : Config) (store : StoreContent) (now : Int) :
    Except PyError (TrackerState × StoreContent) :=
  match store with
  | StoreContent.valid s => Except.ok (s, StoreContent.valid s)
  | StoreContent.corrupt => Except.error PyError.jsonDecodeError
  | StoreContent.absent =>
      let st := initialize_state models now
      Except.ok (st, save_state st)

/-- Everything `RateLimiter.log_request` produces: the returned boolean, the
logging side effects, the updated in-memory state, and the file content. -/
structure LogOutcome where
  result : Bool
  logs : List LogEntry
  state : TrackerState
  store : StoreContent
deriving Repr, DecidableEq

/-- `RateLimiter.log_request`, lines 76-109 of the source, translated
statement by statement. -/
def log_request (models : Config) (state : TrackerState) (store : StoreContent)
    (current_time : Int) (model : String) : Except PyError LogOutcome :=
  match dlookup model models with
  | none => Except.ok ⟨true, [LogEntry.errorUnknownModel model], state, store⟩
  | some limits =>
    match dlookup model state with
    | none => Except.error (PyError.keyError model)
    | some ms0 =>
      let ms1 := if current_time - ms0.minute_start ≥ 60 then
        { ms0 with minute_start := current_time, minute_requests := 0 } else ms0
      let ms2 := if current_time - ms1.day_start ≥ 86400 then
        { ms1 with day_start := current_time, daily_requests := 0 } else ms1
      let warnLogs := if ms2.minute_requests ≥ limits.rpm ∨ ms2.daily_requests ≥ limits.daily then
        [LogEntry.warnAdvisory model (limits.rpm - ms2.minute_requests)
          (limits.daily - ms2.daily_requests)]
        else []
      let ms3 := { ms2 with minute_requests := ms2.minute_requests + 1,
                            daily_requests := ms2.daily_requests + 1 }
      let newState := dupdate model ms3 state
      let remaining_minute := limits.rpm - ms3.minute_requests
      let remaining_daily := limits.daily - ms3.daily_requests
      Except.ok ⟨true,
        warnLogs ++ [LogEntry.infoRequestLogged model remaining_minute remaining_daily],
        newState, save_state newState⟩

/-- One status entry returned by `get_limits`. -/
structure LimitStatus where
  remaining_minute : Int
  remaining_daily : Int
deriving Repr, DecidableEq

/-- `RateLimiter.get_limits`, lines 111-128, translated statement by
statement: it iterates over `self.state.items()` in order, looks each model
up in `MODELS` (a `KeyError` for names outside the configuration), and
overrides the remaining values with the full cap for an elapsed window. -/
def get_limits (models : Config) (state : TrackerState) (current_time : Int) :
    Except PyError (List (String × LimitStatus)) :=
  match state with
  | [] => Except.ok []
  | (model, st) :: rest =>
    match dlookup model models with
    | none => Except.error (PyError.keyError model)
    | some limits =>
      let remaining_minute := limits.rpm - st.minute_requests
      let remaining_daily := limits.daily - st.daily_requests
      let rm := if current_time - st.minute_start ≥ 60 then limits.rpm else remaining_minute
      let rd := if current_time - st.day_start ≥ 86400 then limits.daily else remaining_daily
      match get_limits models rest current_time with
      | Except.error e => Except.error e
      | Except.ok tail => Except.ok ((model, ⟨rm, rd⟩) :: tail)

/-- The tracker object: its in-memory state and the persisted file. -/
structure RateLimiter where
  state : TrackerState
  store : StoreContent
deriving Repr, DecidableEq

/-- `RateLimiter.__init__` (after `setup_logging`): `load_state` against the
class constant `MODELS`. -/
def RateLimiter.construct (store : StoreContent) (now : Int) :
    Except PyError RateLimiter :=
  match load_state MODELS store now with
  | Except.error e => Except.error e
  | Except.ok (st, store1) => Except.ok ⟨st, store1⟩

/-- A limiter as produced by construction with no pre-existing state file. -/
def freshLimiter (now : Int) : RateLimiter :=
  ⟨initialize_state MODELS now, save_state (initialize_state MODELS now)⟩

/-- The `log_request` method acting on the object (the method name is
`log_request` in the source; renamed here only to avoid shadowing the
state-passing function above). -/
def RateLimiter.logRequest (rl : RateLimiter) (t : Int) (model : String) :
    Except PyError (Bool × List LogEntry × RateLimiter) :=
  match log_request MODELS rl.state rl.store t model with
  | Except.error e => Except.error e
  | Except.ok out => Except.ok (out.result, out.logs, ⟨out.state, out.store⟩)

/-- The `get_limits` method acting on the object: the method body only reads
`self.state`, so the object is returned unchanged. -/
def RateLimiter.getLimits (rl : RateLimiter) (t : Int) :
    Except PyError (List (String × LimitStatus)) × RateLimiter :=
  (get_limits MODELS rl.state t, rl)

/-- One caller-visible operation on the tracker. -/
inductive Op where
  | record (t : Int) (model : String)
  | status (t : Int)
deriving Repr, DecidableEq

/-- Run a single operation. -/
def stepOp (rl : RateLimiter) : Op → Except PyError RateLimiter
  | Op.record t model =>
    match rl.logRequest t model with
    | Except.error e => Except.error e
    | Except.ok (_, _, rl1) => Except.ok rl1
  | Op.status t => Except.ok (rl.getLimits t).2

/-- Run a sequence of operations. -/
def runOps (rl : RateLimiter) : List Op → Except PyError RateLimiter
  | [] => Except.ok rl
  | op :: rest =>
    match stepOp rl op with
    | Except.error e => Except.error e
    | Except.ok rl1 => runOps rl1 rest

/-- The window-rollover rule of `recordRequest` (spec steps 2-3) as one pure
function on a single model's window state, used to state that both code
paths compute the same rollover. -/
def rolloverWindows (ms : ModelState) (t : Int) : ModelState :=
  let ms1 := if t - ms.minute_start ≥ 60 then
    { ms with minute_start := t, minute_requests := 0 } else ms
  if t - ms1.day_start ≥ 86400 then
    { ms1 with day_start := t, daily_requests := 0 } else ms1

/-- The full per-model effect of `recordRequest` (spec steps 2-5): roll both
windows over as needed, then increment both counters by one. -/
def recordSpec (ms : ModelState) (t : Int) : ModelState :=
  let ms2 := rolloverWindows ms t
  { ms2 with minute_requests := ms2.minute_requests + 1,
             daily_requests := ms2.daily_requests + 1 }

/-! ### Helper lemmas about the embedded operations -/

theorem rolloverWindows_minute_start (ms : ModelState) (t : Int) :
    (rolloverWindows ms t).minute_start =
      if t - ms.minute_start ≥ 60 then t else ms.minute_start := by
  by_cases h1 : t - ms.minute_start ≥ 60 <;>
    by_cases h2 : t - ms.day_start ≥ 86400 <;>
    simp [rolloverWindows, h1, h2]

theorem rolloverWindows_minute_requests (ms : ModelState) (t : Int) :
    (rolloverWindows ms t).minute_requests =
      if t - ms.minute_start ≥ 60 then 0 else ms.minute_requests := by
  by_cases h1 : t - ms.minute_start ≥ 60 <;>
    by_cases h2 : t - ms.day_start ≥ 86400 <;>
    simp [rolloverWindows, h1, h2]

theorem rolloverWindows_day_start (ms : ModelState) (t : Int) :
    (rolloverWindows ms t).day_start =
      if t - ms.day_start ≥ 86400 then t else ms.day_start := by
  by_cases h1 : t - ms.minute_start ≥ 60 <;>
    by_cases h2 : t - ms.day_start ≥ 86400 <;>
    simp [rolloverWindows, h1, h2]

theorem rolloverWindows_daily_requests (ms : ModelState) (t : Int) :
    (rolloverWindows ms t).daily_requests =
      if t - ms.day_start ≥ 86400 then 0 else ms.daily_requests := by
  by_cases h1 : t - ms.minute_start ≥ 60 <;>
    by_cases h2 : t - ms.day_start ≥ 86400 <;>
    simp [rolloverWindows, h1, h2]

theorem recordSpec_minute_requests (ms : ModelState) (t : Int) :
    (recordSpec ms t).minute_requests = (rolloverWindows ms t).minute_requests + 1 := rfl

theorem recordSpec_daily_requests (ms : ModelState) (t : Int) :
    (recordSpec ms t).daily_requests = (rolloverWindows ms t).daily_requests + 1 := rfl

theorem dlookup_dupdate_of_mem {α : Type} (k : String) (v : α) (d : List (String × α))
    (h : (dlookup k d).isSome) : dlookup k (dupdate k v d) = some v := by
  induction d with
  | nil => simp [dlookup] at h
  | cons p rest ih =>
    obtain ⟨k1, v1⟩ := p
    by_cases hk : k1 = k
    · subst hk
      rw [dupdate, if_pos rfl, dlookup, if_pos rfl]
    · rw [dlookup, if_neg hk] at h
      rw [dupdate, if_neg hk, dlookup, if_neg hk]
      exact ih h

theorem dlookup_dupdate_ne {α : Type} (k k2 : String) (v : α) (d : List (String × α))
    (h : k2 ≠ k) : dlookup k2 (dupdate k v d) = dlookup k2 d := by
  induction d with
  | nil => rfl
  | cons p rest ih =>
    obtain ⟨k1, v1⟩ := p
    by_cases hk : k1 = k
    · subst hk
      have hne : ¬ k1 = k2 := fun hq => h hq.symm
      rw [dupdate, if_pos rfl, dlookup, if_neg hne, dlookup, if_neg hne, ih]
    · rw [dupdate, if_neg hk, dlookup, dlookup, ih]

theorem dlookup_initialize_state (models : Config) (k : String) (t : Int) :
    dlookup k (initialize_state models t) =
      (dlookup k models).map (fun _ => (⟨t, t, 0, 0⟩ : ModelState)) := by
  induction models with
  | nil => rfl
  | cons p rest ih =>
    obtain ⟨k1, l1⟩ := p
    by_cases h : k1 = k <;> simp [initialize_state, dlookup, h] at ih ⊢ <;>
      simpa [initialize_state] using ih

/-- Unfolding of `log_request` for a configured model whose state entry is
present: the result is always `True`, the model entry becomes
`recordSpec ms t`, and the new state is persisted in full. -/
theorem log_request_known_eq (models : Config) (state : TrackerState)
    (store : StoreContent) (t : Int) (model : String)
    (limits : ModelLimits) (ms : ModelState)
    (hm : dlookup model models = some limits) (hs : dlookup model state = some ms) :
    log_request models state store t model = Except.ok
      ⟨true,
       (if (rolloverWindows ms t).minute_requests ≥ limits.rpm ∨
           (rolloverWindows ms t).daily_requests ≥ limits.daily then
          [LogEntry.warnAdvisory model
            (limits.rpm - (rolloverWindows ms t).minute_requests)
            (limits.daily - (rolloverWindows ms t).daily_requests)]
        else []) ++
       [LogEntry.infoRequestLogged model
         (limits.rpm - (recordSpec ms t).minute_requests)
         (limits.daily - (recordSpec ms t).daily_requests)],
       dupdate model (recordSpec ms t) state,
       save_state (dupdate model (recordSpec ms t) state)⟩ := by
  unfold log_request
  rw [hm, hs]
  rfl

theorem recordSpec_minute_start (ms : ModelState) (t : Int) :
    (recordSpec ms t).minute_start = (rolloverWindows ms t).minute_start := rfl

theorem recordSpec_day_start (ms : ModelState) (t : Int) :
    (recordSpec ms t).day_start = (rolloverWindows ms t).day_start := rfl

/-! ### Claim theorems -/

/-- C1: for a resource present in the configured mapping (and hence in the
tracker state), `log_request` at the single observed time `t` resets the
minute window (start to `t`, count to 0) when at least 60 seconds elapsed,
resets the day window likewise at 86400 seconds, then increments both
counters by exactly 1, leaves all other resources untouched, and persists
the full updated tracker state to storage. -/
theorem C1_record_rollover_increment_persist
    (state : TrackerState) (store : StoreContent) (t : Int) (model : String)
    (limits : ModelLimits) (ms : ModelState)
    (hm : dlookup model MODELS = some limits) (hs : dlookup model state = some ms) :
    ∃ out : LogOutcome,
      log_request MODELS state store t model = Except.ok out ∧
      dlookup model out.state = some (recordSpec ms t) ∧
      (∀ m2, m2 ≠ model → dlookup m2 out.state = dlookup m2 state) ∧
      out.store = save_state out.state ∧
      (recordSpec ms t).minute_start =
        (if t - ms.minute_start ≥ 60 then t else ms.minute_start) ∧
      (recordSpec ms t).minute_requests =
        (if t - ms.minute_start ≥ 60 then 0 else ms.minute_requests) + 1 ∧
      (recordSpec ms t).day_start =
        (if t - ms.day_start ≥ 86400 then t else ms.day_start) ∧
      (recordSpec ms t).daily_requests =
        (if t - ms.day_start ≥ 86400 then 0 else ms.daily_requests) + 1 := by
  refine ⟨_, log_request_known_eq MODELS state store t model limits ms hm hs,
    ?_, ?_, rfl, ?_, ?_, ?_, ?_⟩
  · exact dlookup_dupdate_of_mem model (recordSpec ms t) state (by rw [hs]; rfl)
  · intro m2 hne
    exact dlookup_dupdate_ne model m2 (recordSpec ms t) state hne
  · rw [recordSpec_minute_start, rolloverWindows_minute_start]
  · rw [recordSpec_minute_requests, rolloverWindows_minute_requests]
  · rw [recordSpec_day_start, rolloverWindows_day_start]
  · rw [recordSpec_daily_requests, rolloverWindows_daily_requests]

/-- Witness for C1 at concrete inputs: the fresh state at time 0, model
`gemini-1.5-pro`, request recorded at time 100 (the minute window rolls
over, the day window does not). -/
theorem C1_record_witness :
    dlookup "gemini-1.5-pro" MODELS = some ⟨2, 50⟩ ∧
    dlookup "gemini-1.5-pro" (initialize_state MODELS 0) = some ⟨0, 0, 0, 0⟩ ∧
    (∃ out : LogOutcome,
      log_request MODELS (initialize_state MODELS 0) StoreContent.absent 100
          "gemini-1.5-pro" = Except.ok out ∧
      dlookup "gemini-1.5-pro" out.state =
        some (recordSpec ⟨0, 0, 0, 0⟩ 100) ∧
      (∀ m2, m2 ≠ "gemini-1.5-pro" →
        dlookup m2 out.state = dlookup m2 (initialize_state MODELS 0)) ∧
      out.store = save_state out.state ∧
      (recordSpec (⟨0, 0, 0, 0⟩ : ModelState) 100).minute_start =
        (if (100 : Int) - (0 : Int) ≥ 60 then (100 : Int) else 0) ∧
      (recordSpec (⟨0, 0, 0, 0⟩ : ModelState) 100).minute_requests =
        (if (100 : Int) - (0 : Int) ≥ 60 then 0 else 0) + 1 ∧
      (recordSpec (⟨0, 0, 0, 0⟩ : ModelState) 100).day_start =
        (if (100 : Int) - (0 : Int) ≥ 86400 then (100 : Int) else 0) ∧
      (recordSpec (⟨0, 0, 0, 0⟩ : ModelState) 100).daily_requests =
        (if (100 : Int) - (0 : Int) ≥ 86400 then 0 else 0) + 1) :=
  ⟨by decide, by decide,
    C1_record_rollover_increment_persist (initialize_state MODELS 0)
      StoreContent.absent 100 "gemini-1.5-pro" ⟨2, 50⟩ ⟨0, 0, 0, 0⟩
      (by decide) (by decide)⟩

/-- C2: for a resource name outside the configured mapping, `log_request`
logs an unknown-model error, returns `True` exactly like the success path,
raises nothing, and changes neither the state nor the store; `get_limits`
afterwards is identical to `get_limits` before. -/
theorem C2_unknown_resource_no_mutation
    (state : TrackerState) (store : StoreContent) (t : Int) (model : String)
    (hm : dlookup model MODELS = none) :
    ∃ out : LogOutcome,
      log_request MODELS state store t model = Except.ok out ∧
      out.result = true ∧
      out.logs = [LogEntry.errorUnknownModel model] ∧
      out.state = state ∧
      out.store = store ∧
      ∀ tq, get_limits MODELS out.state tq = get_limits MODELS state tq := by
  refine ⟨⟨true, [LogEntry.errorUnknownModel model], state, store⟩,
    ?_, rfl, rfl, rfl, rfl, fun tq => rfl⟩
  unfold log_request
  rw [hm]

/-- Witness for C2: the unconfigured name `no-such-model` against the fresh
state at time 0. -/
theorem C2_unknown_resource_witness :
    dlookup "no-such-model" MODELS = none ∧
    (∃ out : LogOutcome,
      log_request MODELS (initialize_state MODELS 0) StoreContent.absent 5
          "no-such-model" = Except.ok out ∧
      out.result = true ∧
      out.logs = [LogEntry.errorUnknownModel "no-such-model"] ∧
      out.state = initialize_state MODELS 0 ∧
      out.store = StoreContent.absent ∧
      ∀ tq, get_limits MODELS out.state tq =
        get_limits MODELS (initialize_state MODELS 0) tq) :=
  ⟨by decide,
    C2_unknown_resource_no_mutation (initialize_state MODELS 0)
      StoreContent.absent 5 "no-such-model" (by decide)⟩

/-- C3: for every resource name, against any tracker state that (as the data
model requires) has an entry for each configured resource, `log_request`
returns `True`.  For a configured resource, when the post-rollover
pre-increment remaining allowance of either window is at most 0 the advisory
warning carrying exactly those pre-increment remaining values is emitted,
and in all cases both counters are still incremented by exactly 1 and the
request is recorded. -/
theorem C3_always_acknowledges
    (state : TrackerState) (store : StoreContent) (t : Int) (model : String)
    (hwf : ∀ l, dlookup model MODELS = some l → (dlookup model state).isSome) :
    ∃ out : LogOutcome,
      log_request MODELS state store t model = Except.ok out ∧
      out.result = true ∧
      ∀ limits ms, dlookup model MODELS = some limits →
        dlookup model state = some ms →
        dlookup model out.state = some (recordSpec ms t) ∧
        (recordSpec ms t).minute_requests = (rolloverWindows ms t).minute_requests + 1 ∧
        (recordSpec ms t).daily_requests = (rolloverWindows ms t).daily_requests + 1 ∧
        ((limits.rpm - (rolloverWindows ms t).minute_requests ≤ 0 ∨
          limits.daily - (rolloverWindows ms t).daily_requests ≤ 0) ↔
          LogEntry.warnAdvisory model
            (limits.rpm - (rolloverWindows ms t).minute_requests)
            (limits.daily - (rolloverWindows ms t).daily_requests) ∈ out.logs) := by
  cases hm : dlookup model MODELS with
  | none =>
    refine ⟨⟨true, [LogEntry.errorUnknownModel model], state, store⟩, ?_, rfl, ?_⟩
    · unfold log_request
      rw [hm]
    · intro limits ms hml hsl
      cases hml
  | some limits0 =>
    have hsome := hwf limits0 hm
    cases hss : dlookup model state with
    | none =>
      rw [hss] at hsome
      cases hsome
    | some ms0 =>
      refine ⟨_, log_request_known_eq MODELS state store t model limits0 ms0 hm hss,
        rfl, ?_⟩
      intro limits ms hml hsl
      have hl : limits0 = limits := Option.some.inj hml
      have hmss : ms0 = ms := Option.some.inj hsl
      subst hl
      subst hmss
      refine ⟨dlookup_dupdate_of_mem model (recordSpec ms0 t) state (by rw [hss]; rfl),
        rfl, rfl, ?_⟩
      constructor
      · intro hcond
        have hge : (rolloverWindows ms0 t).minute_requests ≥ limits0.rpm ∨
            (rolloverWindows ms0 t).daily_requests ≥ limits0.daily := by omega
        simp only [LogOutcome.logs, if_pos hge, List.mem_append, List.mem_singleton]
        left
        trivial
      · intro hmem
        by_cases hcond : (rolloverWindows ms0 t).minute_requests ≥ limits0.rpm ∨
            (rolloverWindows ms0 t).daily_requests ≥ limits0.daily
        · omega
        · simp only [LogOutcome.logs, if_neg hcond, List.nil_append,
            List.mem_singleton] at hmem
          cases hmem

/-- Witness for C3: `gemini-1.5-pro` (cap 2/minute) already at 2 requests in
the current windows, so the pre-increment remaining minute allowance is 0
and the advisory warning fires while the call still returns `True`. -/
theorem C3_witness :
    (∀ l, dlookup "gemini-1.5-pro" MODELS = some l →
      (dlookup "gemini-1.5-pro"
        [("gemini-1.5-pro", (⟨0, 0, 2, 2⟩ : ModelState))]).isSome) ∧
    (∃ out : LogOutcome,
      log_request MODELS [("gemini-1.5-pro", ⟨0, 0, 2, 2⟩)] StoreContent.absent 30
          "gemini-1.5-pro" = Except.ok out ∧
      out.result = true ∧
      ∀ limits ms, dlookup "gemini-1.5-pro" MODELS = some limits →
        dlookup "gemini-1.5-pro" [("gemini-1.5-pro", (⟨0, 0, 2, 2⟩ : ModelState))] = some ms →
        dlookup "gemini-1.5-pro" out.state = some (recordSpec ms 30) ∧
        (recordSpec ms 30).minute_requests = (rolloverWindows ms 30).minute_requests + 1 ∧
        (recordSpec ms 30).daily_requests = (rolloverWindows ms 30).daily_requests + 1 ∧
        ((limits.rpm - (rolloverWindows ms 30).minute_requests ≤ 0 ∨
          limits.daily - (rolloverWindows ms 30).daily_requests ≤ 0) ↔
          LogEntry.warnAdvisory "gemini-1.5-pro"
            (limits.rpm - (rolloverWindows ms 30).minute_requests)
            (limits.daily - (rolloverWindows ms 30).daily_requests) ∈ out.logs)) :=
  ⟨fun _ _ => by decide,
    C3_always_acknowledges [("gemini-1.5-pro", ⟨0, 0, 2, 2⟩)] StoreContent.absent 30
      "gemini-1.5-pro" (fun _ _ => by decide)⟩

/-- The status entry `get_limits` computes for a configured model equals the
limits minus the counters that the rollover steps of `log_request`
(`rolloverWindows`) would produce at the same observation time. -/
theorem get_limits_entry (models : Config) (t : Int) (model : String)
    (limits : ModelLimits) (state : TrackerState) :
    ∀ (ms : ModelState) (status : List (String × LimitStatus)),
      dlookup model models = some limits → dlookup model state = some ms →
      get_limits models state t = Except.ok status →
      dlookup model status =
        some ⟨limits.rpm - (rolloverWindows ms t).minute_requests,
              limits.daily - (rolloverWindows ms t).daily_requests⟩ := by
  induction state with
  | nil =>
    intro ms status hm hs hok
    simp [dlookup] at hs
  | cons p rest ih =>
    obtain ⟨m1, st1⟩ := p
    intro ms status hm hs hok
    simp only [get_limits] at hok
    by_cases h1 : m1 = model
    · subst h1
      rw [hm] at hok
      rw [dlookup, if_pos rfl] at hs
      have hst : st1 = ms := Option.some.inj hs
      subst hst
      cases hrec : get_limits models rest t with
      | error e => rw [hrec] at hok; cases hok
      | ok tail =>
        rw [hrec] at hok
        have hstat := (Except.ok.inj hok).symm
        subst hstat
        rw [dlookup, if_pos rfl]
        have hmr := rolloverWindows_minute_requests st1 t
        have hdr := rolloverWindows_daily_requests st1 t
        by_cases c1 : t - st1.minute_start ≥ 60 <;>
          by_cases c2 : t - st1.day_start ≥ 86400 <;>
          rw [hmr, hdr] <;> simp [c1, c2]
    · rw [dlookup, if_neg h1] at hs
      cases hm1 : dlookup m1 models with
      | none => rw [hm1] at hok; cases hok
      | some l1 =>
        rw [hm1] at hok
        cases hrec : get_limits models rest t with
        | error e => rw [hrec] at hok; cases hok
        | ok tail =>
          rw [hrec] at hok
          have hstat := (Except.ok.inj hok).symm
          subst hstat
          rw [dlookup, if_neg h1]
          exact ih ms tail hm hs hrec

/-- C4: whenever `get_limits` returns a snapshot, the entry for a configured
resource equals limit minus the post-rollover count that the rollover steps
of `log_request` would produce at the same observation time (the counters
incremented by `log_request` on top of those are exactly `+1` each), and the
`get_limits` method leaves the tracker object, its state, and its persisted
store untouched. -/
theorem C4_status_matches_record_rollover
    (state : TrackerState) (t : Int) (model : String)
    (limits : ModelLimits) (ms : ModelState) (status : List (String × LimitStatus))
    (hm : dlookup model MODELS = some limits)
    (hs : dlookup model state = some ms)
    (hok : get_limits MODELS state t = Except.ok status) :
    dlookup model status =
      some ⟨limits.rpm - (rolloverWindows ms t).minute_requests,
            limits.daily - (rolloverWindows ms t).daily_requests⟩ ∧
    (recordSpec ms t).minute_requests = (rolloverWindows ms t).minute_requests + 1 ∧
    (recordSpec ms t).daily_requests = (rolloverWindows ms t).daily_requests + 1 ∧
    ∀ rl : RateLimiter, rl.getLimits t = ((rl.getLimits t).1, rl) :=
  ⟨get_limits_entry MODELS t model limits state ms status hm hs hok,
   rfl, rfl, fun _ => rfl⟩

/-- Witness for C4: one tracked model with one recorded request, observed 70
seconds later, so the minute window shows the full cap again while the day
window shows 49. -/
theorem C4_status_witness :
    dlookup "gemini-1.5-pro" MODELS = some ⟨2, 50⟩ ∧
    dlookup "gemini-1.5-pro" [("gemini-1.5-pro", (⟨0, 0, 1, 1⟩ : ModelState))] =
      some ⟨0, 0, 1, 1⟩ ∧
    get_limits MODELS [("gemini-1.5-pro", ⟨0, 0, 1, 1⟩)] 70 =
      Except.ok [("gemini-1.5-pro", ⟨2, 49⟩)] ∧
    (dlookup "gemini-1.5-pro" [("gemini-1.5-pro", (⟨2, 49⟩ : LimitStatus))] =
      some ⟨(2 : Int) - (rolloverWindows ⟨0, 0, 1, 1⟩ 70).minute_requests,
            (50 : Int) - (rolloverWindows ⟨0, 0, 1, 1⟩ 70).daily_requests⟩ ∧
    (recordSpec (⟨0, 0, 1, 1⟩ : ModelState) 70).minute_requests =
      (rolloverWindows ⟨0, 0, 1, 1⟩ 70).minute_requests + 1 ∧
    (recordSpec (⟨0, 0, 1, 1⟩ : ModelState) 70).daily_requests =
      (rolloverWindows ⟨0, 0, 1, 1⟩ 70).daily_requests + 1 ∧
    ∀ rl : RateLimiter, rl.getLimits 70 = ((rl.getLimits 70).1, rl)) :=
  ⟨by decide, by decide, rfl,
    C4_status_matches_record_rollover [("gemini-1.5-pro", ⟨0, 0, 1, 1⟩)] 70
      "gemini-1.5-pro" ⟨2, 50⟩ ⟨0, 0, 1, 1⟩ [("gemini-1.5-pro", ⟨2, 49⟩)]
      (by decide) (by decide) rfl⟩

/-- C5: the concrete scenario for `gemini-1.5-pro` (rpm 2, daily 50) from a
fresh tracker at an arbitrary time `T0`: record at `T0` gives remaining
1/49, record at `T0+30` gives 0/48, and a pure status read at `T0+65`
(past the minute window, no new request) gives 2/48. -/
theorem C5_pro_scenario (T0 : Int) :
    ∃ out1 out2 : LogOutcome,
      log_request MODELS (initialize_state MODELS T0)
          (save_state (initialize_state MODELS T0)) T0 "gemini-1.5-pro" =
        Except.ok out1 ∧
      (∃ s1, get_limits MODELS out1.state T0 = Except.ok s1 ∧
        dlookup "gemini-1.5-pro" s1 = some ⟨1, 49⟩) ∧
      log_request MODELS out1.state out1.store (T0 + 30) "gemini-1.5-pro" =
        Except.ok out2 ∧
      (∃ s2, get_limits MODELS out2.state (T0 + 30) = Except.ok s2 ∧
        dlookup "gemini-1.5-pro" s2 = some ⟨0, 48⟩) ∧
      (∃ s3, get_limits MODELS out2.state (T0 + 65) = Except.ok s3 ∧
        dlookup "gemini-1.5-pro" s3 = some ⟨2, 48⟩) := by
  have e1 : ¬ (T0 - T0 ≥ 60) := by omega
  have e2 : ¬ (T0 - T0 ≥ 86400) := by omega
  have e3 : ¬ (T0 + 30 - T0 ≥ 60) := by omega
  have e4 : ¬ (T0 + 30 - T0 ≥ 86400) := by omega
  have e5 : (T0 + 65 - T0 ≥ 60) := by omega
  have e6 : ¬ (T0 + 65 - T0 ≥ 86400) := by omega
  refine
    ⟨⟨true, [LogEntry.infoRequestLogged "gemini-1.5-pro" 1 49],
      [("gemini-1.5-flash", ⟨T0, T0, 0, 0⟩), ("gemini-1.5-flash-8b", ⟨T0, T0, 0, 0⟩),
       ("gemini-1.5-pro", ⟨T0, T0, 1, 1⟩), ("gemini-2.0-flash", ⟨T0, T0, 0, 0⟩),
       ("gemini-2.0-flash-thinking", ⟨T0, T0, 0, 0⟩)],
      save_state
        [("gemini-1.5-flash", ⟨T0, T0, 0, 0⟩), ("gemini-1.5-flash-8b", ⟨T0, T0, 0, 0⟩),
         ("gemini-1.5-pro", ⟨T0, T0, 1, 1⟩), ("gemini-2.0-flash", ⟨T0, T0, 0, 0⟩),
         ("gemini-2.0-flash-thinking", ⟨T0, T0, 0, 0⟩)]⟩,
     ⟨true, [LogEntry.infoRequestLogged "gemini-1.5-pro" 0 48],
      [("gemini-1.5-flash", ⟨T0, T0, 0, 0⟩), ("gemini-1.5-flash-8b", ⟨T0, T0, 0, 0⟩),
       ("gemini-1.5-pro", ⟨T0, T0, 2, 2⟩), ("gemini-2.0-flash", ⟨T0, T0, 0, 0⟩),
       ("gemini-2.0-flash-thinking", ⟨T0, T0, 0, 0⟩)],
      save_state
        [("gemini-1.5-flash", ⟨T0, T0, 0, 0⟩), ("gemini-1.5-flash-8b", ⟨T0, T0, 0, 0⟩),
         ("gemini-1.5-pro", ⟨T0, T0, 2, 2⟩), ("gemini-2.0-flash", ⟨T0, T0, 0, 0⟩),
         ("gemini-2.0-flash-thinking", ⟨T0, T0, 0, 0⟩)]⟩,
     ?_,
     ⟨[("gemini-1.5-flash", ⟨15, 1500⟩), ("gemini-1.5-flash-8b", ⟨15, 1500⟩),
       ("gemini-1.5-pro", ⟨1, 49⟩), ("gemini-2.0-flash", ⟨10, 1500⟩),
       ("gemini-2.0-flash-thinking", ⟨10, 1500⟩)], ?_, ?_⟩,
     ?_,
     ⟨[("gemini-1.5-flash", ⟨15, 1500⟩), ("gemini-1.5-flash-8b", ⟨15, 1500⟩),
       ("gemini-1.5-pro", ⟨0, 48⟩), ("gemini-2.0-flash", ⟨10, 1500⟩),
       ("gemini-2.0-flash-thinking", ⟨10, 1500⟩)], ?_, ?_⟩,
     ⟨[("gemini-1.5-flash", ⟨15, 1500⟩), ("gemini-1.5-flash-8b", ⟨15, 1500⟩),
       ("gemini-1.5-pro", ⟨2, 48⟩), ("gemini-2.0-flash", ⟨10, 1500⟩),
       ("gemini-2.0-flash-thinking", ⟨10, 1500⟩)], ?_, ?_⟩⟩
  all_goals try decide
  all_goals simp [log_request, get_limits, MODELS, initialize_state, dlookup,
    dupdate, save_state, e1, e2, e3, e4, e5, e6]

/-- C6 counterexample: a persisted store that is present but unparseable
makes construction raise (`json.load` has no exception handler in
`load_state`), contradicting the claim that corrupt content is treated as
absent and never a fatal error. -/
theorem C6_corrupt_store_raises :
    RateLimiter.construct StoreContent.corrupt 0 =
      Except.error PyError.jsonDecodeError := rfl

/-- C6 amended: when the persisted store is missing, construction does not
raise; every configured resource is initialized with both counters 0 and
both window starts at the current time, and the resulting tracker is
exactly the freshly-initialized one.  (A corrupt store, by contrast, makes
construction raise.) -/
theorem C6_missing_store_initializes (t : Int) :
    RateLimiter.construct StoreContent.absent t = Except.ok (freshLimiter t) ∧
    (freshLimiter t).state = initialize_state MODELS t ∧
    (∀ model, dlookup model (freshLimiter t).state =
      (dlookup model MODELS).map (fun _ => (⟨t, t, 0, 0⟩ : ModelState))) ∧
    RateLimiter.construct StoreContent.corrupt t =
      Except.error PyError.jsonDecodeError :=
  ⟨rfl, rfl, fun model => dlookup_initialize_state MODELS model t, rfl⟩

/-- C7: saving any tracker state and loading it into a freshly constructed
tracker yields the very same state, and hence `get_limits` output identical
to the original tracker's at every same observation time. -/
theorem C7_persistence_roundtrip (st : TrackerState) (tload : Int) :
    ∃ rl2 : RateLimiter,
      RateLimiter.construct (save_state st) tload = Except.ok rl2 ∧
      rl2.state = st ∧
      ∀ tq, (rl2.getLimits tq).1 = get_limits MODELS st tq :=
  ⟨⟨st, StoreContent.valid st⟩, rfl, rfl, fun _ => rfl⟩

/-- C8: the `get_limits` method is idempotent and read-only: it returns the
tracker object unchanged (state, window starts, counters, and persisted
store all untouched), and an immediately repeated call at the same
observation time returns the identical result. -/
theorem C8_get_limits_idempotent (rl : RateLimiter) (t : Int) :
    (rl.getLimits t).2 = rl ∧
    ((rl.getLimits t).2.getLimits t).1 = (rl.getLimits t).1 ∧
    (rl.getLimits t).2.state = rl.state ∧
    (rl.getLimits t).2.store = rl.store :=
  ⟨rfl, rfl, rfl, rfl⟩

/-- All counters appearing in a tracker state are non-negative. -/
def countsNonneg (st : TrackerState) : Prop :=
  ∀ model ms, dlookup model st = some ms →
    0 ≤ ms.minute_requests ∧ 0 ≤ ms.daily_requests

theorem countsNonneg_initialize_state (models : Config) (t : Int) :
    countsNonneg (initialize_state models t) := by
  intro model ms hms
  rw [dlookup_initialize_state] at hms
  cases hmod : dlookup model models with
  | none => rw [hmod] at hms; cases hms
  | some l =>
    rw [hmod] at hms
    have hv := Option.some.inj hms
    rw [← hv]
    exact ⟨le_refl 0, le_refl 0⟩

/-- `log_request` preserves non-negativity of the counters. -/
theorem countsNonneg_log_request (state : TrackerState) (store : StoreContent)
    (t : Int) (model : String) (out : LogOutcome)
    (h : countsNonneg state)
    (hlr : log_request MODELS state store t model = Except.ok out) :
    countsNonneg out.state := by
  cases hm : dlookup model MODELS with
  | none =>
    unfold log_request at hlr
    rw [hm] at hlr
    have hout := Except.ok.inj hlr
    rw [← hout]
    exact h
  | some limits =>
    cases hs : dlookup model state with
    | none =>
      unfold log_request at hlr
      rw [hm, hs] at hlr
      cases hlr
    | some ms =>
      rw [log_request_known_eq MODELS state store t model limits ms hm hs] at hlr
      have hout := Except.ok.inj hlr
      rw [← hout]
      intro m2 ms2 hm2
      by_cases he : m2 = model
      · subst he
        rw [dlookup_dupdate_of_mem m2 _ state (by rw [hs]; rfl)] at hm2
        have hv := Option.some.inj hm2
        rw [← hv, recordSpec_minute_requests, rolloverWindows_minute_requests,
          recordSpec_daily_requests, rolloverWindows_daily_requests]
        have hold := h m2 ms hs
        constructor
        · by_cases c1 : t - ms.minute_start ≥ 60 <;> simp [c1] <;> omega
        · by_cases c2 : t - ms.day_start ≥ 86400 <;> simp [c2] <;> omega
      · rw [dlookup_dupdate_ne model m2 _ state he] at hm2
        exact h m2 ms2 hm2

/-- A single tracker operation preserves non-negativity of the counters. -/
theorem countsNonneg_step (rl rl2 : RateLimiter) (op : Op)
    (h : countsNonneg rl.state) (hst : stepOp rl op = Except.ok rl2) :
    countsNonneg rl2.state := by
  cases op with
  | status t =>
    have hr := Except.ok.inj hst
    rw [← hr]
    exact h
  | record t model =>
    simp only [stepOp, RateLimiter.logRequest] at hst
    cases hlr : log_request MODELS rl.state rl.store t model with
    | error e => rw [hlr] at hst; cases hst
    | ok out =>
      rw [hlr] at hst
      have hr := Except.ok.inj hst
      rw [← hr]
      exact countsNonneg_log_request rl.state rl.store t model out h hlr

/-- Running any operation sequence preserves non-negativity of counters. -/
theorem countsNonneg_runOps (ops : List Op) :
    ∀ rl rl2 : RateLimiter, countsNonneg rl.state →
      runOps rl ops = Except.ok rl2 → countsNonneg rl2.state := by
  induction ops with
  | nil =>
    intro rl rl2 h hrun
    have hr := Except.ok.inj hrun
    rw [← hr]
    exact h
  | cons op rest ih =>
    intro rl rl2 h hrun
    simp only [runOps] at hrun
    cases hst : stepOp rl op with
    | error e => rw [hst] at hrun; cases hrun
    | ok rl1 =>
      rw [hst] at hrun
      exact ih rl1 rl2 (countsNonneg_step rl rl1 op h hst) hrun

/-- C9: on every tracker state reachable from fresh initialization by any
sequence of record/status operations, all counters are non-negative; and
each successful `log_request` for a configured resource changes its counters
only by the rollover reset to 0 followed by an increment of exactly 1. -/
theorem C9_counts_invariant (t0 : Int) (ops : List Op) (rl : RateLimiter)
    (hrun : runOps (freshLimiter t0) ops = Except.ok rl) :
    countsNonneg rl.state ∧
    ∀ (state : TrackerState) (store : StoreContent) (t : Int) (model : String)
      (limits : ModelLimits) (ms : ModelState) (out : LogOutcome),
      dlookup model MODELS = some limits → dlookup model state = some ms →
      log_request MODELS state store t model = Except.ok out →
      dlookup model out.state = some (recordSpec ms t) ∧
      (recordSpec ms t).minute_requests =
        (if t - ms.minute_start ≥ 60 then 0 else ms.minute_requests) + 1 ∧
      (recordSpec ms t).daily_requests =
        (if t - ms.day_start ≥ 86400 then 0 else ms.daily_requests) + 1 := by
  constructor
  · exact countsNonneg_runOps ops (freshLimiter t0) rl
      (countsNonneg_initialize_state MODELS t0) hrun
  · intro state store t model limits ms out hm hs hlr
    rw [log_request_known_eq MODELS state store t model limits ms hm hs] at hlr
    have hout := Except.ok.inj hlr
    rw [← hout]
    refine ⟨dlookup_dupdate_of_mem model _ state (by rw [hs]; rfl), ?_, ?_⟩
    · rw [recordSpec_minute_requests, rolloverWindows_minute_requests]
    · rw [recordSpec_daily_requests, rolloverWindows_daily_requests]

/-- Witness for C9: a concrete operation sequence (three records on
`gemini-1.5-pro`, one status read, one record on an unknown name) from the
fresh tracker at time 0; the resulting counters are non-negative. -/
theorem C9_counts_invariant_witness :
    runOps (freshLimiter 0) [Op.record 10 "gemini-1.5-pro", Op.status 20,
      Op.record 30 "gemini-1.5-pro", Op.record 40 "unknown-model",
      Op.record 100 "gemini-1.5-pro"] = Except.ok
      ⟨[("gemini-1.5-flash", ⟨0, 0, 0, 0⟩), ("gemini-1.5-flash-8b", ⟨0, 0, 0, 0⟩),
        ("gemini-1.5-pro", ⟨100, 0, 1, 3⟩), ("gemini-2.0-flash", ⟨0, 0, 0, 0⟩),
        ("gemini-2.0-flash-thinking", ⟨0, 0, 0, 0⟩)],
       StoreContent.valid
         [("gemini-1.5-flash", ⟨0, 0, 0, 0⟩), ("gemini-1.5-flash-8b", ⟨0, 0, 0, 0⟩),
          ("gemini-1.5-pro", ⟨100, 0, 1, 3⟩), ("gemini-2.0-flash", ⟨0, 0, 0, 0⟩),
          ("gemini-2.0-flash-thinking", ⟨0, 0, 0, 0⟩)]⟩ ∧
    countsNonneg
      (⟨[("gemini-1.5-flash", ⟨0, 0, 0, 0⟩), ("gemini-1.5-flash-8b", ⟨0, 0, 0, 0⟩),
         ("gemini-1.5-pro", ⟨100, 0, 1, 3⟩), ("gemini-2.0-flash", ⟨0, 0, 0, 0⟩),
         ("gemini-2.0-flash-thinking", ⟨0, 0, 0, 0⟩)],
        StoreContent.valid
          [("gemini-1.5-flash", ⟨0, 0, 0, 0⟩), ("gemini-1.5-flash-8b", ⟨0, 0, 0, 0⟩),
           ("gemini-1.5-pro", ⟨100, 0, 1, 3⟩), ("gemini-2.0-flash", ⟨0, 0, 0, 0⟩),
           ("gemini-2.0-flash-thinking", ⟨0, 0, 0, 0⟩)]⟩ : RateLimiter).state :=
  ⟨rfl,
    (C9_counts_invariant 0
      [Op.record 10 "gemini-1.5-pro", Op.status 20, Op.record 30 "gemini-1.5-pro",
       Op.record 40 "unknown-model", Op.record 100 "gemini-1.5-pro"] _ rfl).1⟩

/-- C10 counterexample: loading a persisted store whose keys differ from the
configuration is accepted verbatim by construction (`load_state` performs no
validation), so the tracker state does not cover the configured resources,
and `get_limits` then raises a `KeyError` instead of returning one entry per
configured resource. -/
theorem C10_loaded_state_counterexample :
    RateLimiter.construct (StoreContent.valid [("foo", ⟨0, 0, 0, 0⟩)]) 0 =
      Except.ok ⟨[("foo", ⟨0, 0, 0, 0⟩)],
        StoreContent.valid [("foo", ⟨0, 0, 0, 0⟩)]⟩ ∧
    dlookup "gemini-1.5-pro" [("foo", (⟨0, 0, 0, 0⟩ : ModelState))] = none ∧
    get_limits MODELS [("foo", ⟨0, 0, 0, 0⟩)] 0 =
      Except.error (PyError.keyError "foo") :=
  ⟨rfl, by decide, rfl⟩

/-- Keys of a freshly initialized state are exactly the configured names. -/
theorem initialize_state_keys (models : Config) (t : Int) :
    (initialize_state models t).map Prod.fst = models.map Prod.fst := by
  simp [initialize_state, List.map_map]

/-- `get_limits` succeeds on any state all of whose keys are configured, and
returns one entry per state entry, with the same keys in the same order. -/
theorem get_limits_ok_of_covered (models : Config) (t : Int) :
    ∀ state : TrackerState,
      (∀ m ms, dlookup m state = some ms → (dlookup m models).isSome) →
      ∃ status, get_limits models state t = Except.ok status ∧
        status.map Prod.fst = state.map Prod.fst := by
  intro state
  induction state with
  | nil => exact fun _ => ⟨[], rfl, rfl⟩
  | cons p rest ih =>
    intro h
    obtain ⟨m1, st1⟩ := p
    have h1 : (dlookup m1 models).isSome :=
      h m1 st1 (by rw [dlookup, if_pos rfl])
    cases hl1 : dlookup m1 models with
    | none => rw [hl1] at h1; cases h1
    | some l1 =>
      have hrest : ∀ m ms, dlookup m rest = some ms → (dlookup m models).isSome := by
        intro m ms hm
        by_cases hq : m1 = m
        · subst hq; exact h1
        · exact h m ms (by rw [dlookup, if_neg hq]; exact hm)
      obtain ⟨tail, htail, hkeys⟩ := ih hrest
      refine ⟨(m1,
        ⟨if t - st1.minute_start ≥ 60 then l1.rpm else l1.rpm - st1.minute_requests,
         if t - st1.day_start ≥ 86400 then l1.daily else l1.daily - st1.daily_requests⟩)
        :: tail, ?_, ?_⟩
      · simp only [get_limits, hl1, htail]
      · simp [hkeys]

/-- C10 amended: a tracker state created fresh (no persisted store) maps
exactly the configured resource names, `get_limits` on it returns one entry
per configured resource with no error, and an empty configuration yields an
empty status mapping.  When the state is loaded from a persisted store, it
is taken verbatim: its keys are the store's keys, and `get_limits` raises
for stored names outside the configuration. -/
theorem C10_fresh_state_covers_config (models : Config) (t tq : Int) :
    (initialize_state models t).map Prod.fst = models.map Prod.fst ∧
    (∃ status, get_limits models (initialize_state models t) tq = Except.ok status ∧
      status.map Prod.fst = models.map Prod.fst) ∧
    get_limits ([] : Config) (initialize_state ([] : Config) t) tq = Except.ok [] ∧
    ∀ st : TrackerState, ∀ tload : Int,
      load_state models (StoreContent.valid st) tload =
        Except.ok (st, StoreContent.valid st) := by
  refine ⟨initialize_state_keys models t, ?_, rfl, fun st tload => rfl⟩
  have hcov : ∀ m ms, dlookup m (initialize_state models t) = some ms →
      (dlookup m models).isSome := by
    intro m ms hm
    rw [dlookup_initialize_state] at hm
    cases hq : dlookup m models with
    | none => rw [hq] at hm; cases hm
    | some l => rfl
  obtain ⟨status, hok, hkeys⟩ := get_limits_ok_of_covered models tq
    (initialize_state models t) hcov
  exact ⟨status, hok, by rw [hkeys, initialize_state_keys]⟩
